import Mathlib

/-!
Verification of the proximity-notification backend.

Shallow embedding of the repository's data model and operations:

* `src/src/models/*.py`          — Pydantic models (`Schedule`, `FCMTokenInDB`,
  `LocationCreate`, notification-history timestamp).
* `src/src/crud/crud_schedule.py` — schedule store adapter
  (`get_schedule`, `get_schedules_by_user`, `update_schedule`).
* `src/src/crud/crud_fcm_token.py` — `get_fcm_token_by_user_id`.
* `src/src/crud/crud_notification_history.py` — `get_notification_history`,
  `update_notification_history`.
* `src/src/api/v1/endpoints/locations.py` —
  `handle_location_update_and_proximity_check`, the proximity orchestrator.

Conventions of the embedding:

* Python floats (coordinates, distances, seconds) are embedded as `ℚ`.
* Python `datetime` values are embedded as `PyDatetime`: a wall-clock value in
  seconds together with an optional UTC offset (`none` = timezone-naive).
* Firestore is a document store: each collection maps a document id to at most
  one document, embedded as a function `String → Option _`.
* Collaborator calls that can raise are embedded as `Except CollabErr _`;
  the two `except` clauses of the orchestrator (`FirebaseError` / `Exception`)
  correspond to the two constructors of `CollabErr`.
* The push sender (`notification_service.send_fcm_proximity_notification`)
  catches every exception internally and returns a boolean, so it is embedded
  as a plain `Bool` outcome in the orchestrator's world.
* A Firestore document's raw dict is embedded as a structure of typed optional
  fields; a field stored with a wrong runtime type is folded into the absent
  case (Pydantic rejects both identically), except for the geo field whose
  `isinstance(· , GeoPoint)` check the code performs explicitly, embedded by
  `GeoStored.malformed`.
-/

/-- Embedding of a Python `datetime`: `wall` is the displayed wall-clock time
in seconds, `tzOffset` the UTC offset in seconds (`none` = naive datetime). -/
structure PyDatetime where
  wall : ℚ
  tzOffset : Option ℚ
deriving DecidableEq

/-- Embeds `last_sent_at.replace(tzinfo=timezone.utc)` applied only when the
datetime is naive (locations.py lines 106-108): the wall-clock fields are kept
and the offset becomes UTC. -/
def toAwareUTC (ts : PyDatetime) : PyDatetime :=
  match ts.tzOffset with
  | none => { ts with tzOffset := some 0 }
  | some _ => ts

/-- Absolute (UTC) seconds of an offset-aware datetime. -/
def awareAbsSeconds (d : PyDatetime) : ℚ :=
  d.wall - d.tzOffset.getD 0

/-- Embeds `current_time - last_sent_at_aware` (locations.py line 110), where
`current_time = datetime.now(timezone.utc)` has wall clock `nowWall` and offset
zero, and a naive stored timestamp is first reinterpreted as UTC. -/
def elapsedSinceUTC (nowWall : ℚ) (ts : PyDatetime) : ℚ :=
  nowWall - awareAbsSeconds (toAwareUTC ts)

/-- The cooldown window, `timedelta(minutes=10)`, in seconds. -/
def cooldownSeconds : ℚ := 600

/-- Embedding of the Pydantic `Schedule` model (models/schedule.py).
The coordinates are embedded as `Option ℚ` because the orchestrator loop
(locations.py line 73) guards on `latitude is not None` / `longitude is not
None`; `validateSchedule` below — the embedding of Pydantic validation, where
`latitude: float` and `longitude: float` are required — only ever produces
values with both coordinates present. -/
structure Schedule where
  id : String
  name : String
  firebase_userid : String
  description : Option String
  latitude : Option ℚ
  longitude : Option ℚ
  schedule_datetime : PyDatetime
deriving DecidableEq

/-- Embedding of `FCMTokenInDB` (models/fcm_token.py). -/
structure FCMTokenInDB where
  token : String
  user_id : String
deriving DecidableEq

/-- Embedding of `LocationCreate` (models/location.py). -/
structure LocationCreate where
  firebase_userid : String
  latitude : ℚ
  longitude : ℚ
deriving DecidableEq

/-- The raw value stored under the Firestore key `geoPoint`: either an actual
`GeoPoint` instance, or some other value (which fails the
`isinstance(retrieved_geopoint, GeoPoint)` check in crud_schedule.py). -/
inductive GeoStored where
  | geoPoint (latitude longitude : ℚ)
  | malformed
deriving DecidableEq

/-- Embedding of a raw stored schedule document (the dict returned by
`doc_snapshot.to_dict()` for the `schedule` collection). Fields carry the
Firestore key names; `sdatetime` stands for the Firestore key `datetime`.
`extraKeys` records whether the dict holds keys beyond the modelled ones, so
that emptiness of the dict (`not schedule_db_data`) is expressible. -/
structure StoredScheduleDoc where
  title : Option String
  userId : Option String
  content : Option String
  geoPoint : Option GeoStored
  sdatetime : Option PyDatetime
  extraKeys : Bool
deriving DecidableEq

/-- Whether the raw dict is empty (falsy in Python: `not schedule_db_data`). -/
def StoredScheduleDoc.isEmptyDict (d : StoredScheduleDoc) : Bool :=
  d.title.isNone && d.userId.isNone && d.content.isNone &&
    d.geoPoint.isNone && d.sdatetime.isNone && !d.extraKeys

/-- Embeds crud_schedule.py lines 80-87 / 114-120: pop the `geoPoint` value;
if it is a `GeoPoint` instance expose its coordinates, otherwise set both
`latitude` and `longitude` to `None`. -/
def extractLatLon : Option GeoStored → Option ℚ × Option ℚ
  | some (.geoPoint la lo) => (some la, some lo)
  | _ => (none, none)

/-- Embeds Pydantic validation of `Schedule(**schedule_db_data)`
(models/schedule.py `ScheduleBase` + `ScheduleInDBBase`): `title` → `name`,
`userId` → `firebase_userid`, `content` → `description`, `datetime` →
`schedule_datetime` are mapped by alias; `name`, `firebase_userid`,
`latitude`, `longitude` and `schedule_datetime` are required (a `None` or
absent value raises `ValidationError`, embedded as `none`); `description` is
optional. -/
def validateSchedule (id : String) (d : StoredScheduleDoc) : Option Schedule :=
  match d.title, d.userId, d.sdatetime, extractLatLon d.geoPoint with
  | some t, some u, some dt, (some la, some lo) =>
      some ⟨id, t, u, d.content, some la, some lo, dt⟩
  | _, _, _, _ => none

/-- Embedding of `crud_schedule.get_schedule`: `snap` is the document stored
under the given id (`none` = snapshot does not exist). `Except.error` embeds a
raised `ValidationError`; `Except.ok none` embeds a returned `None`. -/
def get_schedule (snap : Option StoredScheduleDoc) (schedule_id : String) :
    Except Unit (Option Schedule) :=
  match snap with
  | none => .ok none
  | some d =>
      if d.isEmptyDict then .ok none
      else
        match validateSchedule schedule_id d with
        | some s => .ok (some s)
        | none => .error ()

/-- A document snapshot produced by the `userId ==` query in
`get_schedules_by_user`. -/
structure ScheduleDocSnapshot where
  id : String
  docExists : Bool
  data : StoredScheduleDoc
deriving DecidableEq

/-- Embedding of `crud_schedule.get_schedules_by_user` over the stream of
snapshots the query returns: existing, non-empty documents are converted via
`extractLatLon` and validated into `Schedule` values in stream order; a
validation failure raises (`Except.error`), aborting the whole fetch. -/
def get_schedules_by_user : List ScheduleDocSnapshot → Except Unit (List Schedule)
  | [] => .ok []
  | snap :: rest =>
      if snap.docExists then
        if snap.data.isEmptyDict then get_schedules_by_user rest
        else
          match validateSchedule snap.id snap.data with
          | none => .error ()
          | some s => (get_schedules_by_user rest).map (fun l => s :: l)
      else get_schedules_by_user rest

/-- Embedding of the Pydantic `ScheduleUpdate` model together with
`model_dump(by_alias=True, exclude_unset=True)`: for each field, `none` means
the client did not supply it (excluded from the dump), `some none` means it was
supplied explicitly as `null`, `some (some v)` means it was supplied as `v`. -/
structure ScheduleUpdate where
  name : Option (Option String) := none
  latitude : Option (Option ℚ) := none
  longitude : Option (Option ℚ) := none
  description : Option (Option String) := none
  schedule_datetime : Option (Option PyDatetime) := none
deriving DecidableEq

/-- What `update_schedule` returns: `notFound` embeds a returned `None` (the
endpoint turns it into 404), `ok` a returned `Schedule`, `validationError` a
`ValidationError` raised while rebuilding the document via `get_schedule`. -/
inductive UpdateResult where
  | notFound
  | ok (s : Schedule)
  | validationError
deriving DecidableEq

/-- The result of `update_schedule` together with its effect on the store:
`newDoc` is the document stored under the id afterwards and `wrote` whether a
Firestore write (`doc_ref.update`) was issued. -/
structure UpdateOutcome where
  result : UpdateResult
  newDoc : Option StoredScheduleDoc
  wrote : Bool
deriving DecidableEq

/-- Maps the outcome of `get_schedule` to the value `update_schedule` returns. -/
def resultOfGet : Except Unit (Option Schedule) → UpdateResult
  | .ok none => .notFound
  | .ok (some s) => .ok s
  | .error _ => .validationError

/-- Embedding of `crud_schedule.update_schedule`: check existence; build
`update_data` from the dumped `ScheduleUpdate`; when `latitude` or `longitude`
is among the supplied keys, pop both and merge each missing side from the
existing `geoPoint` (when that is a `GeoPoint` instance), writing a merged
`geoPoint` only when both final coordinates are present; if no update keys
remain, perform no write and return the current state via `get_schedule`;
otherwise write the merged keys and return the updated document via
`get_schedule`. -/
def scheduleGeoUpdate (doc : StoredScheduleDoc) (u : ScheduleUpdate) :
    Option GeoStored :=
  if u.latitude.isSome || u.longitude.isSome then
    let newLat := u.latitude.join
    let newLon := u.longitude.join
    let finalLat :=
      match newLat with
      | some v => some v
      | none => (extractLatLon doc.geoPoint).1
    let finalLon :=
      match newLon with
      | some v => some v
      | none => (extractLatLon doc.geoPoint).2
    match finalLat, finalLon with
    | some la, some lo => some (.geoPoint la lo)
    | _, _ => none
  else none

/-- Whether the dumped `update_data` dict ends up empty (`if not update_data`):
no key other than the popped coordinates, and no merged `geoPoint` formed. -/
def scheduleUpdateIsEmpty (doc : StoredScheduleDoc) (u : ScheduleUpdate) : Bool :=
  !(u.name.isSome || u.description.isSome || u.schedule_datetime.isSome) &&
    (scheduleGeoUpdate doc u).isNone

/-- The stored document after `doc_ref.update(update_data)`: supplied keys are
written (an explicit `null` value is folded into the absent case), the merged
`geoPoint` replaces the old one when formed, and everything else — notably
`userId`, which `ScheduleUpdate` cannot carry — is kept. -/
def scheduleDocAfterUpdate (doc : StoredScheduleDoc) (u : ScheduleUpdate) :
    StoredScheduleDoc :=
  { title := if u.name.isSome then u.name.join else doc.title
    userId := doc.userId
    content := if u.description.isSome then u.description.join else doc.content
    geoPoint :=
      match scheduleGeoUpdate doc u with
      | some g => some g
      | none => doc.geoPoint
    sdatetime :=
      if u.schedule_datetime.isSome then u.schedule_datetime.join
      else doc.sdatetime
    extraKeys := doc.extraKeys }

def update_schedule (snap : Option StoredScheduleDoc) (schedule_id : String)
    (u : ScheduleUpdate) : UpdateOutcome :=
  match snap with
  | none => ⟨.notFound, none, false⟩
  | some doc =>
      if scheduleUpdateIsEmpty doc u then
        ⟨resultOfGet (get_schedule snap schedule_id), snap, false⟩
      else
        ⟨resultOfGet (get_schedule (some (scheduleDocAfterUpdate doc u)) schedule_id),
         some (scheduleDocAfterUpdate doc u), true⟩

/-- Embedding of `crud_fcm_token.get_fcm_token_by_user_id`: `doc` is the
document stored under id `firebase_userid` in the `fcm_token` collection —
`none` = document does not exist; `some none` = document exists but its dict is
empty or lacks the `token` key; `some (some tk)` = the `token` field holds the
string `tk`. -/
def get_fcm_token_by_user_id (firebase_userid : String)
    (doc : Option (Option String)) : Option FCMTokenInDB :=
  match doc with
  | none => none
  | some none => none
  | some (some tk) => some ⟨tk, firebase_userid⟩

/-- The composite document id used by both notification-history operations:
`f"{user_id}_{schedule_id}"`. -/
def histDocId (user_id schedule_id : String) : String :=
  user_id ++ "_" ++ schedule_id

/-- Embedding of `crud_notification_history.get_notification_history` over a
store mapping document ids to documents; a document is its optional
`last_sent_at` field (`none` field = empty dict or key absent, both of which
make the function return `None`). -/
def get_notification_history (store : String → Option (Option PyDatetime))
    (user_id schedule_id : String) : Option PyDatetime :=
  (store (histDocId user_id schedule_id)).join

/-- Embedding of `crud_notification_history.update_notification_history`:
`doc_ref.set` creates or overwrites the single document at the composite id. -/
def update_notification_history (store : String → Option (Option PyDatetime))
    (user_id schedule_id : String) (timestamp : PyDatetime) :
    String → Option (Option PyDatetime) :=
  fun k => if k = histDocId user_id schedule_id then some (some timestamp) else store k

/-- A raised collaborator exception, split by the two `except` clauses of the
orchestrator: `FirebaseError` vs any other `Exception`. -/
inductive CollabErr where
  | firebase (msg : String)
  | unexpected (msg : String)
deriving DecidableEq

/-- The distinct `details` strings the orchestrator can return, one
constructor per assignment site in locations.py, with the data interpolated
into the message as payload. -/
inductive Detail where
  | firebaseNotReady
  | noProximateSchedule
  | cooldownActive (scheduleName : String) (remainingMinutes : ℤ)
  | sentSuccessfully (scheduleName : String)
  | sendFailed (scheduleName : String)
  | tokenStringMissing (userId scheduleName : String)
  | noTokenDocument (userId scheduleName : String)
  | firebaseErrorDetail (msg : String)
  | unexpectedErrorDetail (msg : String)
deriving DecidableEq

/-- The detail produced by the matching `except` clause (locations.py lines
157-168). -/
def errDetail : CollabErr → Detail
  | .firebase m => .firebaseErrorDetail m
  | .unexpected m => .unexpectedErrorDetail m

/-- The response body `{"notification_sent": ..., "detail": ...}`. -/
structure OrchResult where
  notification_sent : Bool
  detail : Detail
deriving DecidableEq

/-- The orchestrator's environment for one request: outcomes of each
collaborator call it may make, plus the current UTC wall clock and the
geodesic distance function (geopy's `geodesic(...).meters`, external). -/
structure World where
  firebaseApps : Bool
  schedulesResult : Except CollabErr (List Schedule)
  dist : ℚ × ℚ → ℚ × ℚ → ℚ
  nowWall : ℚ
  historyResult : Except CollabErr (Option PyDatetime)
  tokenResult : Except CollabErr (Option FCMTokenInDB)
  sendSucceeds : Bool
  historyWriteResult : Except CollabErr Unit

/-- The observable outcome of one request: the response body, the successful
notification-history writes issued (owner id, schedule id, timestamp), and
whether the token lookup and the push sender were invoked. -/
structure OrchOutcome where
  response : OrchResult
  historyWrites : List (String × String × PyDatetime)
  tokenLookedUp : Bool
  sendInvoked : Bool
deriving DecidableEq

/-- Whether one schedule passes the loop body's test (locations.py lines
73-83): both coordinates present and geodesic distance at most 100 meters. -/
def coordMatch (dist : ℚ × ℚ → ℚ × ℚ → ℚ) (loc : ℚ × ℚ) (s : Schedule) : Bool :=
  match s.latitude, s.longitude with
  | some la, some lo => decide (dist loc (la, lo) ≤ 100)
  | _, _ => false

/-- Embedding of the schedule loop (locations.py lines 68-93): return the
first schedule passing `coordMatch`, stopping there (`break`). -/
def findProximate (dist : ℚ × ℚ → ℚ × ℚ → ℚ) (loc : ℚ × ℚ) :
    List Schedule → Option Schedule
  | [] => none
  | s :: rest => if coordMatch dist loc s then some s else findProximate dist loc rest

/-- Stated from the spec's words for comparison with `coordMatch`: coordinates
"both present" and "geodesic distance to the update's coordinates less than or
equal to 100.0 meters". -/
def specIsProximate (dist : ℚ × ℚ → ℚ × ℚ → ℚ) (loc : ℚ × ℚ) (s : Schedule) : Bool :=
  s.latitude.isSome && s.longitude.isSome &&
    decide (dist loc (s.latitude.getD 0, s.longitude.getD 0) ≤ 100)

/-- Stated from the spec's words: "the first schedule in the store's returned
order" satisfying `specIsProximate`. -/
def specFirstProximate (dist : ℚ × ℚ → ℚ × ℚ → ℚ) (loc : ℚ × ℚ)
    (l : List Schedule) : Option Schedule :=
  l.find? (specIsProximate dist loc)

/-- Embedding of locations.py lines 121-150: fetch the FCM token; with a
truthy token string invoke the sender; on send success set
`notification_sent`, then write the history entry with `current_time` (a write
failure raises after `notification_sent_status = True` was already set). -/
def tokenPhase (w : World) (location_data : LocationCreate) (sched : Schedule) :
    OrchOutcome :=
  match w.tokenResult with
  | .error e => ⟨⟨false, errDetail e⟩, [], true, false⟩
  | .ok none =>
      ⟨⟨false, .noTokenDocument location_data.firebase_userid sched.name⟩, [], true, false⟩
  | .ok (some fcm_token_obj) =>
      if fcm_token_obj.token ≠ "" then
        if w.sendSucceeds then
          match w.historyWriteResult with
          | .ok _ =>
              ⟨⟨true, .sentSuccessfully sched.name⟩,
               [(location_data.firebase_userid, sched.id, ⟨w.nowWall, some 0⟩)],
               true, true⟩
          | .error e => ⟨⟨true, errDetail e⟩, [], true, true⟩
        else ⟨⟨false, .sendFailed sched.name⟩, [], true, true⟩
      else
        ⟨⟨false, .tokenStringMissing location_data.firebase_userid sched.name⟩,
         [], true, false⟩

/-- Embedding of locations.py lines 96-119: read the history entry for the
matched schedule; when one exists and strictly less than 10 minutes elapsed
since `last_sent_at` (naive timestamps reinterpreted as UTC), suppress with the
cooldown detail; otherwise continue to the token phase. -/
def historyPhase (w : World) (location_data : LocationCreate) (sched : Schedule) :
    OrchOutcome :=
  match w.historyResult with
  | .error e => ⟨⟨false, errDetail e⟩, [], false, false⟩
  | .ok none => tokenPhase w location_data sched
  | .ok (some last_sent_at) =>
      let elapsed := elapsedSinceUTC w.nowWall last_sent_at
      if elapsed < cooldownSeconds then
        ⟨⟨false, .cooldownActive sched.name ⌊(cooldownSeconds - elapsed) / 60⌋⟩,
         [], false, false⟩
      else tokenPhase w location_data sched

/-- Embedding of `handle_location_update_and_proximity_check`
(locations.py lines 31-170): guard on Firebase app presence, fetch schedules,
find the first proximate schedule, then run the history and token phases; any
collaborator error is caught and embedded in the returned body. -/
def handle_location_update_and_proximity_check (w : World)
    (location_data : LocationCreate) : OrchOutcome :=
  if w.firebaseApps = false then
    ⟨⟨false, .firebaseNotReady⟩, [], false, false⟩
  else
    match w.schedulesResult with
    | .error e => ⟨⟨false, errDetail e⟩, [], false, false⟩
    | .ok user_schedules =>
        let current_device_location := (location_data.latitude, location_data.longitude)
        match findProximate w.dist current_device_location user_schedules with
        | none => ⟨⟨false, .noProximateSchedule⟩, [], false, false⟩
        | some sched => historyPhase w location_data sched

/-- Replays the orchestrator's successful history writes against a
notification-history store, via the store's own write operation. -/
def applyHistoryWrites (store : String → Option (Option PyDatetime)) :
    List (String × String × PyDatetime) → (String → Option (Option PyDatetime))
  | [] => store
  | (u, s, t) :: rest =>
      applyHistoryWrites (update_notification_history store u s t) rest

/-! ### Helper lemmas -/

theorem coordMatch_eq_specIsProximate (dist : ℚ × ℚ → ℚ × ℚ → ℚ) (loc : ℚ × ℚ)
    (s : Schedule) : coordMatch dist loc s = specIsProximate dist loc s := by
  rcases hla : s.latitude with _ | la <;> rcases hlo : s.longitude with _ | lo <;>
    simp [coordMatch, specIsProximate, hla, hlo]

theorem handle_eq_historyPhase (w : World) (loc : LocationCreate)
    (l : List Schedule) (sch : Schedule)
    (h1 : w.firebaseApps = true)
    (h2 : w.schedulesResult = .ok l)
    (h3 : findProximate w.dist (loc.latitude, loc.longitude) l = some sch) :
    handle_location_update_and_proximity_check w loc = historyPhase w loc sch := by
  simp [handle_location_update_and_proximity_check, h1, h2, h3]

theorem historyPhase_canSend (w : World) (loc : LocationCreate) (sch : Schedule)
    (h : w.historyResult = .ok none ∨
      ∃ ts, w.historyResult = .ok (some ts) ∧
        cooldownSeconds ≤ elapsedSinceUTC w.nowWall ts) :
    historyPhase w loc sch = tokenPhase w loc sch := by
  rcases h with h | ⟨ts, h, hle⟩
  · simp [historyPhase, h]
  · simp only [historyPhase, h]
    rw [if_neg (not_lt.mpr hle)]

/-! ### Claim theorems -/

/-- C1: for every location update and every list of schedules returned by the
store, the matched schedule is the first schedule in the store's order whose
coordinates are both present and whose geodesic distance to the update is at
most 100.0 meters; iteration stops at that schedule (the tail beyond the first
match is irrelevant), a schedule at distance exactly 100 meters matches, and
one strictly above 100 meters does not. -/
theorem C1_first_match_within_100m :
    (∀ (dist : ℚ × ℚ → ℚ × ℚ → ℚ) (loc : ℚ × ℚ) (l : List Schedule),
        findProximate dist loc l = specFirstProximate dist loc l)
  ∧ (∀ (dist : ℚ × ℚ → ℚ × ℚ → ℚ) (loc : ℚ × ℚ) (l1 : List Schedule)
        (s : Schedule) (l2 l2' : List Schedule),
        coordMatch dist loc s = true →
        findProximate dist loc (l1 ++ s :: l2) =
          findProximate dist loc (l1 ++ s :: l2'))
  ∧ (∀ (dist : ℚ × ℚ → ℚ × ℚ → ℚ) (loc : ℚ × ℚ) (s : Schedule) (la lo : ℚ),
        s.latitude = some la → s.longitude = some lo →
        (dist loc (la, lo) = 100 → findProximate dist loc [s] = some s)
      ∧ (100 < dist loc (la, lo) → findProximate dist loc [s] = none)) := by
  refine ⟨?_, ?_, ?_⟩
  · intro dist loc l
    induction l with
    | nil => rfl
    | cons s rest ih =>
      have hc := coordMatch_eq_specIsProximate dist loc s
      by_cases h : specIsProximate dist loc s = true
      · simp [findProximate, specFirstProximate, List.find?_cons_of_pos, h, hc]
      · have h' : specIsProximate dist loc s = false := by
          cases hx : specIsProximate dist loc s
          · rfl
          · exact absurd hx h
        simp [findProximate, specFirstProximate, List.find?_cons_of_neg,
          h', hc, ih]
  · intro dist loc l1 s l2 l2' hs
    induction l1 with
    | nil => simp [findProximate, hs]
    | cons x xs ih =>
      simp only [List.cons_append, findProximate]
      cases hx : coordMatch dist loc x <;> simp [hx, ih]
  · intro dist loc s la lo hla hlo
    constructor
    · intro h100
      simp [findProximate, coordMatch, hla, hlo, h100]
    · intro hgt
      simp [findProximate, coordMatch, hla, hlo, not_le.mpr hgt]

/-- Witness for C1 at a concrete schedule: a constant distance of exactly 100
meters matches, a constant distance of 101 meters does not. -/
theorem C1_first_match_within_100m_witness :
    findProximate (fun _ _ => (100 : ℚ)) (0, 0)
        [⟨"s1", "Gym", "u1", none, some 1, some 2, ⟨0, some 0⟩⟩] =
      some ⟨"s1", "Gym", "u1", none, some 1, some 2, ⟨0, some 0⟩⟩
  ∧ findProximate (fun _ _ => (101 : ℚ)) (0, 0)
        [⟨"s1", "Gym", "u1", none, some 1, some 2, ⟨0, some 0⟩⟩] = none := by
  exact ⟨(C1_first_match_within_100m.2.2 _ _ _ 1 2 rfl rfl).1 rfl,
         (C1_first_match_within_100m.2.2 _ _ _ 1 2 rfl rfl).2 (by norm_num)⟩

theorem tokenPhase_tokenLookedUp (w : World) (loc : LocationCreate)
    (sched : Schedule) : (tokenPhase w loc sched).tokenLookedUp = true := by
  rcases h : w.tokenResult with e | t
  · simp [tokenPhase, h]
  · rcases t with _ | tok
    · simp [tokenPhase, h]
    · by_cases ht : tok.token = ""
      · simp [tokenPhase, h, ht]
      · cases hs : w.sendSucceeds
        · simp [tokenPhase, h, ht, hs]
        · rcases hw : w.historyWriteResult with e | u
          · simp [tokenPhase, h, ht, hs, hw]
          · simp [tokenPhase, h, ht, hs, hw]

/-- C2: with a matched schedule, a history entry less than 10 minutes old
suppresses sending (result `notification_sent = false` with the cooldown
detail, token never looked up, sender never invoked); with no entry, or an
entry 10 minutes old or more, the flow proceeds to the token lookup and send
phase. -/
theorem C2_cooldown_gate (w : World) (loc : LocationCreate)
    (scheds : List Schedule) (sch : Schedule)
    (hInit : w.firebaseApps = true)
    (hS : w.schedulesResult = .ok scheds)
    (hM : findProximate w.dist (loc.latitude, loc.longitude) scheds = some sch) :
    (∀ ts, w.historyResult = .ok (some ts) →
        elapsedSinceUTC w.nowWall ts < cooldownSeconds →
        handle_location_update_and_proximity_check w loc =
          ⟨⟨false, .cooldownActive sch.name
              ⌊(cooldownSeconds - elapsedSinceUTC w.nowWall ts) / 60⌋⟩,
           [], false, false⟩)
  ∧ (w.historyResult = .ok none →
        handle_location_update_and_proximity_check w loc = tokenPhase w loc sch
        ∧ (handle_location_update_and_proximity_check w loc).tokenLookedUp = true)
  ∧ (∀ ts, w.historyResult = .ok (some ts) →
        cooldownSeconds ≤ elapsedSinceUTC w.nowWall ts →
        handle_location_update_and_proximity_check w loc = tokenPhase w loc sch
        ∧ (handle_location_update_and_proximity_check w loc).tokenLookedUp = true) := by
  refine ⟨?_, ?_, ?_⟩
  · intro ts hH hLt
    rw [handle_eq_historyPhase w loc scheds sch hInit hS hM]
    simp only [historyPhase, hH]
    rw [if_pos hLt]
  · intro hH
    have he := handle_eq_historyPhase w loc scheds sch hInit hS hM
    have hc := historyPhase_canSend w loc sch (Or.inl hH)
    rw [he, hc]
    exact ⟨rfl, tokenPhase_tokenLookedUp w loc sch⟩
  · intro ts hH hLe
    have he := handle_eq_historyPhase w loc scheds sch hInit hS hM
    have hc := historyPhase_canSend w loc sch (Or.inr ⟨ts, hH, hLe⟩)
    rw [he, hc]
    exact ⟨rfl, tokenPhase_tokenLookedUp w loc sch⟩

/-- Concrete world for the C2 witness: one matching schedule, a history entry
5 minutes old (elapsed 300 s of the 600 s window). -/
def wC2 : World :=
  { firebaseApps := true
    schedulesResult := .ok [⟨"s1", "Gym", "u1", none, some 1, some 2, ⟨0, some 0⟩⟩]
    dist := fun _ _ => 0
    nowWall := 1000
    historyResult := .ok (some ⟨700, some 0⟩)
    tokenResult := .ok (some ⟨"tok", "u1"⟩)
    sendSucceeds := true
    historyWriteResult := .ok () }

/-- Witness for C2: in `wC2` the cooldown is active and the orchestrator
suppresses with 5 remaining minutes reported. -/
theorem C2_cooldown_gate_witness :
    handle_location_update_and_proximity_check wC2 ⟨"u1", 0, 0⟩ =
      ⟨⟨false, .cooldownActive "Gym" 5⟩, [], false, false⟩ := by
  have h := (C2_cooldown_gate wC2 ⟨"u1", 0, 0⟩
      [⟨"s1", "Gym", "u1", none, some 1, some 2, ⟨0, some 0⟩⟩]
      ⟨"s1", "Gym", "u1", none, some 1, some 2, ⟨0, some 0⟩⟩
      rfl rfl (by decide)).1
    ⟨700, some 0⟩ rfl (by norm_num [wC2, elapsedSinceUTC, awareAbsSeconds,
      toAwareUTC, cooldownSeconds])
  rw [h]
  norm_num [wC2, elapsedSinceUTC, awareAbsSeconds, toAwareUTC, cooldownSeconds]

/-- C3: with a matched schedule, cooldown allowing, and a usable token, the
notification-history entry for (owner, matched schedule) is written with
timestamp `now` exactly when the push send succeeds: on success the result is
`notification_sent = true` and replaying the writes equals the store's own
overwrite for that pair; on failure the result is `notification_sent = false`
and the store is left unchanged. -/
theorem C3_history_written_iff_send_success (w : World) (loc : LocationCreate)
    (scheds : List Schedule) (sch : Schedule) (tok : FCMTokenInDB)
    (hInit : w.firebaseApps = true)
    (hS : w.schedulesResult = .ok scheds)
    (hM : findProximate w.dist (loc.latitude, loc.longitude) scheds = some sch)
    (hCool : w.historyResult = .ok none ∨
      ∃ ts, w.historyResult = .ok (some ts) ∧
        cooldownSeconds ≤ elapsedSinceUTC w.nowWall ts)
    (hTok : w.tokenResult = .ok (some tok))
    (hTokNE : tok.token ≠ "")
    (hW : w.historyWriteResult = .ok ()) :
    (w.sendSucceeds = true →
        (handle_location_update_and_proximity_check w loc).response =
          ⟨true, .sentSuccessfully sch.name⟩
      ∧ (handle_location_update_and_proximity_check w loc).historyWrites =
          [(loc.firebase_userid, sch.id, ⟨w.nowWall, some 0⟩)]
      ∧ ∀ store, applyHistoryWrites store
            (handle_location_update_and_proximity_check w loc).historyWrites =
          update_notification_history store loc.firebase_userid sch.id
            ⟨w.nowWall, some 0⟩)
  ∧ (w.sendSucceeds = false →
        (handle_location_update_and_proximity_check w loc).response =
          ⟨false, .sendFailed sch.name⟩
      ∧ (handle_location_update_and_proximity_check w loc).historyWrites = []
      ∧ ∀ store, applyHistoryWrites store
            (handle_location_update_and_proximity_check w loc).historyWrites =
          store)
  ∧ ((handle_location_update_and_proximity_check w loc).historyWrites ≠ [] ↔
        w.sendSucceeds = true) := by
  have he : handle_location_update_and_proximity_check w loc = tokenPhase w loc sch := by
    rw [handle_eq_historyPhase w loc scheds sch hInit hS hM,
      historyPhase_canSend w loc sch hCool]
  refine ⟨?_, ?_, ?_⟩
  · intro hs
    rw [he]
    simp [tokenPhase, hTok, hTokNE, hs, hW, applyHistoryWrites]
  · intro hs
    rw [he]
    simp [tokenPhase, hTok, hTokNE, hs, applyHistoryWrites]
  · rw [he]
    cases hs : w.sendSucceeds
    · simp [tokenPhase, hTok, hTokNE, hs]
    · simp [tokenPhase, hTok, hTokNE, hs, hW]

/-- Concrete world for the C3 witness: match found, no prior history, usable
token, send succeeds, write succeeds. -/
def wC3 : World :=
  { firebaseApps := true
    schedulesResult := .ok [⟨"s1", "Gym", "u1", none, some 1, some 2, ⟨0, some 0⟩⟩]
    dist := fun _ _ => 0
    nowWall := 1000
    historyResult := .ok none
    tokenResult := .ok (some ⟨"tok", "u1"⟩)
    sendSucceeds := true
    historyWriteResult := .ok () }

/-- Witness for C3: in `wC3` the send succeeds, the result reports it, and
exactly the history write for ("u1", "s1") at time now was issued. -/
theorem C3_history_written_iff_send_success_witness :
    (handle_location_update_and_proximity_check wC3 ⟨"u1", 0, 0⟩).historyWrites =
      [("u1", "s1", ⟨1000, some 0⟩)]
  ∧ (handle_location_update_and_proximity_check wC3 ⟨"u1", 0, 0⟩).response =
      ⟨true, .sentSuccessfully "Gym"⟩ := by
  have h := C3_history_written_iff_send_success wC3 ⟨"u1", 0, 0⟩
    [⟨"s1", "Gym", "u1", none, some 1, some 2, ⟨0, some 0⟩⟩]
    ⟨"s1", "Gym", "u1", none, some 1, some 2, ⟨0, some 0⟩⟩
    ⟨"tok", "u1"⟩ rfl rfl (by decide) (Or.inl rfl) rfl (by decide) rfl
  exact ⟨(h.1 rfl).2.1, (h.1 rfl).1⟩

/-- C4 counterexample: a token document that exists but lacks the `token`
field is already mapped to `None` by `get_fcm_token_by_user_id`, so the
orchestrator reports the "no token document found" detail for it — not the
"token string is missing" detail the claim assigns to a record whose token
string is missing. -/
theorem C4_token_key_absent_counterexample :
    get_fcm_token_by_user_id "u1" (some none) = none
  ∧ (handle_location_update_and_proximity_check
        { firebaseApps := true
          schedulesResult :=
            .ok [⟨"s1", "Gym", "u1", none, some 1, some 2, ⟨0, some 0⟩⟩]
          dist := fun _ _ => 0
          nowWall := 1000
          historyResult := .ok none
          tokenResult := .ok (get_fcm_token_by_user_id "u1" (some none))
          sendSucceeds := true
          historyWriteResult := .ok () } ⟨"u1", 0, 0⟩).response =
      ⟨false, .noTokenDocument "u1" "Gym"⟩
  ∧ Detail.noTokenDocument "u1" "Gym" ≠ Detail.tokenStringMissing "u1" "Gym" := by
  exact ⟨rfl, by decide, by decide⟩

/-- C4 amended: when a schedule matches and the cooldown allows sending — if
the lookup yields no token record (either because no document exists or
because the document lacks the `token` field, which the lookup treats as
absent), the result is `notification_sent = false` with the "no token found"
detail and the sender is not invoked; if a record with an empty token string
is returned, the result is `notification_sent = false` with the "token
missing" detail and the sender is not invoked; only a non-empty token string
causes the sender to be invoked. -/
theorem C4_token_lookup_outcomes (w : World) (loc : LocationCreate)
    (scheds : List Schedule) (sch : Schedule)
    (hInit : w.firebaseApps = true)
    (hS : w.schedulesResult = .ok scheds)
    (hM : findProximate w.dist (loc.latitude, loc.longitude) scheds = some sch)
    (hCool : w.historyResult = .ok none ∨
      ∃ ts, w.historyResult = .ok (some ts) ∧
        cooldownSeconds ≤ elapsedSinceUTC w.nowWall ts) :
    (∀ u, get_fcm_token_by_user_id u none = none)
  ∧ (∀ u, get_fcm_token_by_user_id u (some none) = none)
  ∧ (∀ u tk, get_fcm_token_by_user_id u (some (some tk)) = some ⟨tk, u⟩)
  ∧ (w.tokenResult = .ok none →
        (handle_location_update_and_proximity_check w loc).response =
          ⟨false, .noTokenDocument loc.firebase_userid sch.name⟩
      ∧ (handle_location_update_and_proximity_check w loc).sendInvoked = false)
  ∧ (∀ tok : FCMTokenInDB, w.tokenResult = .ok (some tok) → tok.token = "" →
        (handle_location_update_and_proximity_check w loc).response =
          ⟨false, .tokenStringMissing loc.firebase_userid sch.name⟩
      ∧ (handle_location_update_and_proximity_check w loc).sendInvoked = false)
  ∧ (∀ tok : FCMTokenInDB, w.tokenResult = .ok (some tok) → tok.token ≠ "" →
        (handle_location_update_and_proximity_check w loc).sendInvoked = true) := by
  have he : handle_location_update_and_proximity_check w loc = tokenPhase w loc sch := by
    rw [handle_eq_historyPhase w loc scheds sch hInit hS hM,
      historyPhase_canSend w loc sch hCool]
  refine ⟨fun _ => rfl, fun _ => rfl, fun _ _ => rfl, ?_, ?_, ?_⟩
  · intro hT
    rw [he]
    simp [tokenPhase, hT]
  · intro tok hT hEmpty
    rw [he]
    simp [tokenPhase, hT, hEmpty]
  · intro tok hT hNE
    rw [he]
    cases hs : w.sendSucceeds
    · simp [tokenPhase, hT, hNE, hs]
    · rcases hw : w.historyWriteResult with e | u
      · simp [tokenPhase, hT, hNE, hs, hw]
      · simp [tokenPhase, hT, hNE, hs, hw]

/-- Concrete world for the C4 witness: match found, cooldown clear, no token
record at all. -/
def wC4 : World :=
  { firebaseApps := true
    schedulesResult := .ok [⟨"s1", "Gym", "u1", none, some 1, some 2, ⟨0, some 0⟩⟩]
    dist := fun _ _ => 0
    nowWall := 1000
    historyResult := .ok none
    tokenResult := .ok none
    sendSucceeds := true
    historyWriteResult := .ok () }

/-- Witness for C4: in `wC4` the orchestrator reports the "no token found"
detail and the sender is not invoked. -/
theorem C4_token_lookup_outcomes_witness :
    (handle_location_update_and_proximity_check wC4 ⟨"u1", 0, 0⟩).response =
      ⟨false, .noTokenDocument "u1" "Gym"⟩
  ∧ (handle_location_update_and_proximity_check wC4 ⟨"u1", 0, 0⟩).sendInvoked
      = false := by
  have h := C4_token_lookup_outcomes wC4 ⟨"u1", 0, 0⟩
    [⟨"s1", "Gym", "u1", none, some 1, some 2, ⟨0, some 0⟩⟩]
    ⟨"s1", "Gym", "u1", none, some 1, some 2, ⟨0, some 0⟩⟩
    rfl rfl (by decide) (Or.inl rfl)
  exact h.2.2.2.1 rfl

theorem tokenPhase_historyResult_irrelevant (w : World)
    (h : Except CollabErr (Option PyDatetime)) (loc : LocationCreate)
    (sched : Schedule) :
    tokenPhase { w with historyResult := h } loc sched = tokenPhase w loc sched :=
  rfl

/-- C5: in the cooldown evaluation a stored `last_sent_at` without timezone
information is reinterpreted as UTC, the elapsed time is the current UTC wall
clock minus the timestamp, and the orchestrator's whole outcome for a naive
timestamp equals the outcome for the identical timestamp explicitly marked
UTC. -/
theorem C5_naive_timestamp_treated_as_utc (w : World) (loc : LocationCreate)
    (t : ℚ) :
    elapsedSinceUTC w.nowWall ⟨t, none⟩ = w.nowWall - t
  ∧ elapsedSinceUTC w.nowWall ⟨t, none⟩ = elapsedSinceUTC w.nowWall ⟨t, some 0⟩
  ∧ handle_location_update_and_proximity_check
        { w with historyResult := .ok (some ⟨t, none⟩) } loc =
      handle_location_update_and_proximity_check
        { w with historyResult := .ok (some ⟨t, some 0⟩) } loc := by
  obtain ⟨apps, sres, dist, noww, hres, tres, send, hwr⟩ := w
  have hel : elapsedSinceUTC noww ⟨t, none⟩ = elapsedSinceUTC noww ⟨t, some 0⟩ := by
    simp [elapsedSinceUTC, awareAbsSeconds, toAwareUTC]
  refine ⟨by simp [elapsedSinceUTC, awareAbsSeconds, toAwareUTC], hel, ?_⟩
  cases apps
  · simp [handle_location_update_and_proximity_check]
  · rcases sres with e | scheds
    · simp [handle_location_update_and_proximity_check]
    · rcases hF : findProximate dist (loc.latitude, loc.longitude) scheds
        with _ | sch
      · simp [handle_location_update_and_proximity_check, hF]
      · simp only [handle_location_update_and_proximity_check, hF]
        simp only [historyPhase]
        rw [hel]
        by_cases hc : elapsedSinceUTC noww ⟨t, some 0⟩ < cooldownSeconds
        · rw [if_pos hc, if_pos hc]
        · rw [if_neg hc, if_neg hc]
          rfl

/-- C6 counterexample: when the notification-history write raises after a
successful push send, the handler catches the exception and returns a body
whose detail describes the error, but `notification_sent` remains `true` —
refuting the claim that every caught collaborator exception is converted into
a result with `notification_sent = false`. -/
theorem C6_history_write_failure_counterexample :
    (handle_location_update_and_proximity_check
        { firebaseApps := true
          schedulesResult :=
            .ok [⟨"s1", "Gym", "u1", none, some 1, some 2, ⟨0, some 0⟩⟩]
          dist := fun _ _ => 0
          nowWall := 1000
          historyResult := .ok none
          tokenResult := .ok (some ⟨"tok", "u1"⟩)
          sendSucceeds := true
          historyWriteResult := .error (.firebase "history write failed") }
        ⟨"u1", 0, 0⟩).response =
      ⟨true, .firebaseErrorDetail "history write failed"⟩ := by
  decide

/-- C6 amended: every collaborator exception raised during the proximity flow
is caught and converted into a returned `{notification_sent, detail}` body
with an error-describing detail and no history write recorded;
`notification_sent` is `false` when the failure occurs in the schedules fetch,
the history read, or the token read, but remains `true` when the history write
fails after a successful send. -/
theorem C6_collaborator_errors_contained (w : World) (loc : LocationCreate)
    (hInit : w.firebaseApps = true) :
    (∀ e, w.schedulesResult = .error e →
        handle_location_update_and_proximity_check w loc =
          ⟨⟨false, errDetail e⟩, [], false, false⟩)
  ∧ (∀ e scheds sch, w.schedulesResult = .ok scheds →
        findProximate w.dist (loc.latitude, loc.longitude) scheds = some sch →
        w.historyResult = .error e →
        handle_location_update_and_proximity_check w loc =
          ⟨⟨false, errDetail e⟩, [], false, false⟩)
  ∧ (∀ e scheds sch, w.schedulesResult = .ok scheds →
        findProximate w.dist (loc.latitude, loc.longitude) scheds = some sch →
        (w.historyResult = .ok none ∨
          ∃ ts, w.historyResult = .ok (some ts) ∧
            cooldownSeconds ≤ elapsedSinceUTC w.nowWall ts) →
        w.tokenResult = .error e →
        handle_location_update_and_proximity_check w loc =
          ⟨⟨false, errDetail e⟩, [], true, false⟩)
  ∧ (∀ e scheds sch (tok : FCMTokenInDB), w.schedulesResult = .ok scheds →
        findProximate w.dist (loc.latitude, loc.longitude) scheds = some sch →
        (w.historyResult = .ok none ∨
          ∃ ts, w.historyResult = .ok (some ts) ∧
            cooldownSeconds ≤ elapsedSinceUTC w.nowWall ts) →
        w.tokenResult = .ok (some tok) → tok.token ≠ "" →
        w.sendSucceeds = true →
        w.historyWriteResult = .error e →
        handle_location_update_and_proximity_check w loc =
          ⟨⟨true, errDetail e⟩, [], true, true⟩) := by
  refine ⟨?_, ?_, ?_, ?_⟩
  · intro e hE
    simp [handle_location_update_and_proximity_check, hInit, hE]
  · intro e scheds sch hS hM hE
    rw [handle_eq_historyPhase w loc scheds sch hInit hS hM]
    simp [historyPhase, hE]
  · intro e scheds sch hS hM hCool hE
    rw [handle_eq_historyPhase w loc scheds sch hInit hS hM,
      historyPhase_canSend w loc sch hCool]
    simp [tokenPhase, hE]
  · intro e scheds sch tok hS hM hCool hT hNE hSend hW
    rw [handle_eq_historyPhase w loc scheds sch hInit hS hM,
      historyPhase_canSend w loc sch hCool]
    simp [tokenPhase, hT, hNE, hSend, hW]

/-- Concrete world for the C6 witness: the schedules fetch raises. -/
def wC6 : World :=
  { firebaseApps := true
    schedulesResult := .error (.unexpected "db down")
    dist := fun _ _ => 0
    nowWall := 0
    historyResult := .ok none
    tokenResult := .ok none
    sendSucceeds := false
    historyWriteResult := .ok () }

/-- Witness for C6: in `wC6` the schedules-fetch error is embedded in the
returned body with `notification_sent = false`. -/
theorem C6_collaborator_errors_contained_witness :
    handle_location_update_and_proximity_check wC6 ⟨"u1", 0, 0⟩ =
      ⟨⟨false, .unexpectedErrorDetail "db down"⟩, [], false, false⟩ := by
  exact (C6_collaborator_errors_contained wC6 ⟨"u1", 0, 0⟩ rfl).1
    (.unexpected "db down") rfl

/-- C7: code behavior at the failing input. A stored schedule document whose
`geoPoint` value is not a `GeoPoint` instance gets `latitude = None`, fails
Pydantic validation (the `Schedule` model requires a float), and the raised
error aborts the whole fetch — the record is not skipped and the following
well-formed record is never evaluated, although fetching the well-formed
record alone succeeds. -/
theorem C7_malformed_record_aborts_fetch :
    validateSchedule "bad"
      ⟨some "Bad", some "u1", none, some .malformed, some ⟨0, some 0⟩, false⟩ = none
  ∧ get_schedules_by_user
      [⟨"bad", true, ⟨some "Bad", some "u1", none, some .malformed,
          some ⟨0, some 0⟩, false⟩⟩,
       ⟨"good", true, ⟨some "Gym", some "u1", none, some (.geoPoint 37 127),
          some ⟨0, some 0⟩, false⟩⟩] = .error ()
  ∧ get_schedules_by_user
      [⟨"good", true, ⟨some "Gym", some "u1", none, some (.geoPoint 37 127),
          some ⟨0, some 0⟩, false⟩⟩] =
      .ok [⟨"good", "Gym", "u1", none, some 37, some 127, ⟨0, some 0⟩⟩] := by
  exact ⟨rfl, rfl, rfl⟩

theorem update_schedule_keeps_full_geo (doc : StoredScheduleDoc)
    (schedule_id : String) (la0 lo0 : ℚ)
    (hGeo : doc.geoPoint = some (.geoPoint la0 lo0)) (u : ScheduleUpdate) :
    ∃ la lo, ((update_schedule (some doc) schedule_id u).newDoc.map
      StoredScheduleDoc.geoPoint) = some (some (.geoPoint la lo)) := by
  obtain ⟨nm, lat, lon, desc, dt⟩ := u
  rcases lat with _ | (_ | la1) <;> rcases lon with _ | (_ | lo1)
  · by_cases hO : (nm.isSome || desc.isSome || dt.isSome) = true
    · exact ⟨la0, lo0, by simp [update_schedule, scheduleUpdateIsEmpty,
        scheduleGeoUpdate, scheduleDocAfterUpdate, hGeo, hO]⟩
    · exact ⟨la0, lo0, by simp [update_schedule, scheduleUpdateIsEmpty,
        scheduleGeoUpdate, scheduleDocAfterUpdate, hGeo, hO]⟩
  · exact ⟨la0, lo0, by simp [update_schedule, scheduleUpdateIsEmpty,
      scheduleGeoUpdate, scheduleDocAfterUpdate, hGeo, extractLatLon]⟩
  · exact ⟨la0, lo1, by simp [update_schedule, scheduleUpdateIsEmpty,
      scheduleGeoUpdate, scheduleDocAfterUpdate, hGeo, extractLatLon]⟩
  · exact ⟨la0, lo0, by simp [update_schedule, scheduleUpdateIsEmpty,
      scheduleGeoUpdate, scheduleDocAfterUpdate, hGeo, extractLatLon]⟩
  · exact ⟨la0, lo0, by simp [update_schedule, scheduleUpdateIsEmpty,
      scheduleGeoUpdate, scheduleDocAfterUpdate, hGeo, extractLatLon]⟩
  · exact ⟨la0, lo1, by simp [update_schedule, scheduleUpdateIsEmpty,
      scheduleGeoUpdate, scheduleDocAfterUpdate, hGeo, extractLatLon]⟩
  · exact ⟨la1, lo0, by simp [update_schedule, scheduleUpdateIsEmpty,
      scheduleGeoUpdate, scheduleDocAfterUpdate, hGeo, extractLatLon]⟩
  · exact ⟨la1, lo0, by simp [update_schedule, scheduleUpdateIsEmpty,
      scheduleGeoUpdate, scheduleDocAfterUpdate, hGeo, extractLatLon]⟩
  · exact ⟨la1, lo1, by simp [update_schedule, scheduleUpdateIsEmpty,
      scheduleGeoUpdate, scheduleDocAfterUpdate, hGeo, extractLatLon]⟩

/-- C8: for an existing schedule whose stored `geoPoint` is a coordinate pair,
an update supplying only `latitude` stores the pair (new latitude, old
longitude), an update supplying only `longitude` stores (old latitude, new
longitude), and no update whatsoever can leave the stored `geoPoint` of such a
document half-updated: it remains a full coordinate pair. -/
theorem C8_partial_update_preserves_pair (doc : StoredScheduleDoc)
    (schedule_id : String) (la0 lo0 : ℚ)
    (hGeo : doc.geoPoint = some (.geoPoint la0 lo0)) :
    (∀ la1 : ℚ,
        (update_schedule (some doc) schedule_id
            { latitude := some (some la1) }).newDoc =
          some { doc with geoPoint := some (.geoPoint la1 lo0) })
  ∧ (∀ lo1 : ℚ,
        (update_schedule (some doc) schedule_id
            { longitude := some (some lo1) }).newDoc =
          some { doc with geoPoint := some (.geoPoint la0 lo1) })
  ∧ (∀ u : ScheduleUpdate, ∃ la lo,
        ((update_schedule (some doc) schedule_id u).newDoc.map
            StoredScheduleDoc.geoPoint) = some (some (.geoPoint la lo))) := by
  refine ⟨?_, ?_, ?_⟩
  · intro la1
    simp [update_schedule, scheduleUpdateIsEmpty, scheduleGeoUpdate,
      scheduleDocAfterUpdate, hGeo, extractLatLon]
  · intro lo1
    simp [update_schedule, scheduleUpdateIsEmpty, scheduleGeoUpdate,
      scheduleDocAfterUpdate, hGeo, extractLatLon]
  · intro u
    exact update_schedule_keeps_full_geo doc schedule_id la0 lo0 hGeo u

/-- Witness for C8 at a concrete document: updating only latitude to 38 keeps
the stored longitude 127. -/
theorem C8_partial_update_preserves_pair_witness :
    (update_schedule
        (some ⟨some "Gym", some "u1", none, some (.geoPoint 37 127),
          some ⟨0, some 0⟩, false⟩) "s1"
        { latitude := some (some 38) }).newDoc =
      some ⟨some "Gym", some "u1", none, some (.geoPoint 38 127),
        some ⟨0, some 0⟩, false⟩ := by
  exact (C8_partial_update_preserves_pair _ "s1" 37 127 rfl).1 38

/-- C9: both the read and the write of notification history address the single
document keyed by the composite id built from owner and schedule id, so a
write for a pair overwrites that pair's entry (leaving at most one), a
subsequent read for the same pair observes the last written timestamp, and no
other key of the store is touched. -/
theorem C9_at_most_one_history_entry_per_pair :
    (∀ (store : String → Option (Option PyDatetime)) (u s : String)
        (t : PyDatetime),
        get_notification_history (update_notification_history store u s t) u s =
          some t)
  ∧ (∀ (store : String → Option (Option PyDatetime)) (u s : String)
        (t1 t2 : PyDatetime),
        update_notification_history (update_notification_history store u s t1)
            u s t2 =
          update_notification_history store u s t2)
  ∧ (∀ (store : String → Option (Option PyDatetime)) (u s : String)
        (t : PyDatetime) (k : String), k ≠ histDocId u s →
        update_notification_history store u s t k = store k) := by
  refine ⟨?_, ?_, ?_⟩
  · intro store u s t
    simp [get_notification_history, update_notification_history]
  · intro store u s t1 t2
    funext k
    by_cases hk : k = histDocId u s <;> simp [update_notification_history, hk]
  · intro store u s t k hk
    simp [update_notification_history, hk]

/-- Witness for C9: read-after-write observes the written timestamp and an
unrelated key is untouched, on the empty store. -/
theorem C9_at_most_one_history_entry_per_pair_witness :
    get_notification_history
        (update_notification_history (fun _ => none) "u1" "s1" ⟨5, some 0⟩)
        "u1" "s1" = some ⟨5, some 0⟩
  ∧ update_notification_history (fun _ => none) "u1" "s1" ⟨5, some 0⟩ "other"
      = none := by
  exact ⟨C9_at_most_one_history_entry_per_pair.1 (fun _ => none) "u1" "s1"
      ⟨5, some 0⟩,
    C9_at_most_one_history_entry_per_pair.2.2 (fun _ => none) "u1" "s1"
      ⟨5, some 0⟩ "other" (by decide)⟩

/-- C10 counterexample: an existing but field-less schedule document, updated
with a body supplying no fields, yields the not-found signal (the returned
`None` the endpoint maps to 404) even though a schedule document with that id
exists — refuting the claim that the not-found signal is returned only when no
schedule with the id exists. -/
theorem C10_empty_doc_counterexample :
    update_schedule (some ⟨none, none, none, none, none, false⟩) "s1" {} =
      ⟨.notFound, some ⟨none, none, none, none, none, false⟩, false⟩ := by
  rfl

theorem validateSchedule_userId_isSome (id : String) (d : StoredScheduleDoc)
    (s : Schedule) (h : validateSchedule id d = some s) :
    d.userId.isSome = true := by
  unfold validateSchedule at h
  split at h
  · rename_i t u dt la lo heq
    simp_all
  · exact absurd h (by simp)

theorem isEmptyDict_false_of_userId_some (d : StoredScheduleDoc)
    (h : d.userId.isSome = true) : d.isEmptyDict = false := by
  unfold StoredScheduleDoc.isEmptyDict
  rcases hd : d.userId with _ | u0
  · rw [hd] at h
    simp at h
  · simp [hd]

theorem update_schedule_some_result (doc : StoredScheduleDoc)
    (schedule_id : String) (u : ScheduleUpdate) :
    ∃ d : StoredScheduleDoc, d.userId = doc.userId ∧
      (update_schedule (some doc) schedule_id u).result =
        resultOfGet (get_schedule (some d) schedule_id) := by
  simp only [update_schedule]
  split
  · exact ⟨doc, rfl, rfl⟩
  · refine ⟨_, ?_, rfl⟩
    rfl

/-- C10 amended: for an existing schedule id whose stored document is
non-empty and validates as a schedule, an update supplying no fields performs
no write, leaves the store unchanged, and returns that schedule; the not-found
signal is returned for a nonexistent id regardless of the body, never for such
a validating document — but, diverging from the claim, an existing document
with no fields also yields the not-found signal (see the counterexample). -/
theorem C10_empty_update_frame (snap : Option StoredScheduleDoc)
    (doc : StoredScheduleDoc) (sch : Schedule) (schedule_id : String)
    (hSnap : snap = some doc)
    (hNE : doc.isEmptyDict = false)
    (hVal : validateSchedule schedule_id doc = some sch) :
    (update_schedule snap schedule_id {}).wrote = false
  ∧ (update_schedule snap schedule_id {}).newDoc = snap
  ∧ (update_schedule snap schedule_id {}).result = .ok sch
  ∧ (∀ u : ScheduleUpdate, update_schedule none schedule_id u =
      ⟨.notFound, none, false⟩)
  ∧ (∀ u : ScheduleUpdate,
      (update_schedule snap schedule_id u).result ≠ .notFound) := by
  subst hSnap
  have hbranch : update_schedule (some doc) schedule_id {} =
      ⟨resultOfGet (get_schedule (some doc) schedule_id), some doc, false⟩ := rfl
  have hget : get_schedule (some doc) schedule_id = .ok (some sch) := by
    simp [get_schedule, hNE, hVal]
  refine ⟨by rw [hbranch], by rw [hbranch], ?_, fun u => rfl, ?_⟩
  · rw [hbranch, hget]
    rfl
  · intro u
    have huid := validateSchedule_userId_isSome schedule_id doc sch hVal
    obtain ⟨d, hdu, hres⟩ := update_schedule_some_result doc schedule_id u
    rw [hres]
    have h2 : d.isEmptyDict = false :=
      isEmptyDict_false_of_userId_some d (by rw [hdu]; exact huid)
    rcases hv2 : validateSchedule schedule_id d with _ | s2 <;>
      simp [get_schedule, h2, hv2, resultOfGet]

/-- Witness for C10 at a concrete validating document: the empty update writes
nothing and returns the stored schedule. -/
theorem C10_empty_update_frame_witness :
    (update_schedule
        (some ⟨some "Gym", some "u1", none, some (.geoPoint 37 127),
          some ⟨0, some 0⟩, false⟩) "s1" {}).wrote = false
  ∧ (update_schedule
        (some ⟨some "Gym", some "u1", none, some (.geoPoint 37 127),
          some ⟨0, some 0⟩, false⟩) "s1" {}).result =
      .ok ⟨"s1", "Gym", "u1", none, some 37, some 127, ⟨0, some 0⟩⟩ := by
  have h := C10_empty_update_frame
    (some ⟨some "Gym", some "u1", none, some (.geoPoint 37 127),
      some ⟨0, some 0⟩, false⟩)
    ⟨some "Gym", some "u1", none, some (.geoPoint 37 127), some ⟨0, some 0⟩, false⟩
    ⟨"s1", "Gym", "u1", none, some 37, some 127, ⟨0, some 0⟩⟩ "s1" rfl rfl rfl
  exact ⟨h.1, h.2.2.1⟩
